import Mathlib

/-!
Shallow embedding of `nullsmtpd` (src/nullsmtpd/nullsmtpd.py): the
`NullSMTPDHandler` class (constructor and `handle_DATA`) together with the
startup sequence of `main`, over an explicit filesystem state.  Paths are
opaque strings; `os.path.join` is modelled by `osPathJoin` following the
posix rules the code relies on; `bytes.decode("utf-8")` is modelled by a
strict UTF-8 decoder over byte lists.
-/

/-- Filesystem state: the set of existing directories and an association
list from file path to file content.  The first matching entry wins on
lookup, mirroring a map. -/
structure FS where
  dirs : List String
  files : List (String × String)
deriving DecidableEq, Repr

/-- Lookup of a file's content in an association list (first match). -/
def fileLookup (l : List (String × String)) (p : String) : Option String :=
  (l.find? (fun e => e.1 = p)).map (fun e => e.2)

/-- Content of the file at path `p`, if it exists. -/
def fsLookup (fs : FS) (p : String) : Option String :=
  fileLookup fs.files p

/-- Model of `os.path.isfile`. -/
def fsIsFile (fs : FS) (p : String) : Bool :=
  (fsLookup fs p).isSome

/-- Model of `os.path.isdir`. -/
def fsIsDir (fs : FS) (p : String) : Bool :=
  fs.dirs.contains p

/-- Model of `os.mkdir`: fails (raising `FileExistsError`, an `OSError`)
when the path already exists as a file or a directory; on success the
directory set grows and the files are untouched. -/
def fsMkdir (fs : FS) (p : String) : Except String FS :=
  if fsIsFile fs p ∨ fsIsDir fs p then Except.error p
  else Except.ok { fs with dirs := p :: fs.dirs }

/-- Model of `open(path, "a")` followed by `write(s)`: append to the
existing content, or create the file with content `s` when absent. -/
def fsAppend (fs : FS) (p : String) (s : String) : FS :=
  match fsLookup fs p with
  | some c =>
      { fs with files := fs.files.map (fun e => if e.1 = p then (e.1, c ++ s) else e) }
  | none => { fs with files := fs.files ++ [(p, s)] }

/-- Model of posix `os.path.join(a, b)`: a component starting with the
separator discards everything before it; otherwise the separator is
inserted unless already present.  The `startswith`/`endswith` tests on
the one-character separator are expressed on the character lists. -/
def osPathJoin (a b : String) : String :=
  if b.data.head? = some '/' then b
  else if a = "" ∨ a.data.getLast? = some '/' then a ++ b
  else a ++ "/" ++ b

/-- Model of `str.lstrip(".")`: drop every leading dot character. -/
def lstripDot (s : String) : String :=
  ⟨s.data.dropWhile (fun c => c = '.')⟩

/-- Strict UTF-8 decoding of a byte list (fuel-indexed worker), as
performed by `bytes.decode("utf-8")`: rejects stray continuation bytes,
truncated sequences, overlong encodings, surrogates and values above
U+10FFFF. -/
def utf8DecodeAux : Nat → List Nat → Option (List Char)
  | _, [] => some []
  | 0, _ :: _ => none
  | Nat.succ fuel, b :: bs =>
    if b < 0x80 then
      (utf8DecodeAux fuel bs).map (fun cs => Char.ofNat b :: cs)
    else if 0xC2 ≤ b ∧ b ≤ 0xDF then
      match bs with
      | b1 :: rest =>
        if 0x80 ≤ b1 ∧ b1 ≤ 0xBF then
          (utf8DecodeAux fuel rest).map
            (fun cs => Char.ofNat ((b - 0xC0) * 0x40 + (b1 - 0x80)) :: cs)
        else none
      | [] => none
    else if 0xE0 ≤ b ∧ b ≤ 0xEF then
      match bs with
      | b1 :: b2 :: rest =>
        if (if b = 0xE0 then 0xA0 else 0x80) ≤ b1 ∧
            b1 ≤ (if b = 0xED then 0x9F else 0xBF) ∧
            0x80 ≤ b2 ∧ b2 ≤ 0xBF then
          (utf8DecodeAux fuel rest).map
            (fun cs =>
              Char.ofNat ((b - 0xE0) * 0x1000 + (b1 - 0x80) * 0x40 + (b2 - 0x80)) :: cs)
        else none
      | _ => none
    else if 0xF0 ≤ b ∧ b ≤ 0xF4 then
      match bs with
      | b1 :: b2 :: b3 :: rest =>
        if (if b = 0xF0 then 0x90 else 0x80) ≤ b1 ∧
            b1 ≤ (if b = 0xF4 then 0x8F else 0xBF) ∧
            0x80 ≤ b2 ∧ b2 ≤ 0xBF ∧ 0x80 ≤ b3 ∧ b3 ≤ 0xBF then
          (utf8DecodeAux fuel rest).map
            (fun cs =>
              Char.ofNat ((b - 0xF0) * 0x40000 + (b1 - 0x80) * 0x1000 +
                (b2 - 0x80) * 0x40 + (b3 - 0x80)) :: cs)
        else none
      | _ => none
    else none

/-- Model of `envelope.content.decode("utf-8")`: `none` is the raised
`UnicodeDecodeError`. -/
def pyDecodeUtf8 (bs : List Nat) : Option String :=
  (utf8DecodeAux bs.length bs).map (fun cs => ⟨cs⟩)

/-- Envelope handed to `handle_DATA` by aiosmtpd: sender, ordered
recipients and raw body bytes. -/
structure Envelope where
  mail_from : String
  rcpt_tos : List String
  content : List Nat
deriving DecidableEq, Repr

/-- State of a constructed `NullSMTPDHandler`: mail directory, echo flag
and the (dot-stripped) file extension. -/
structure NullSMTPDHandler where
  mail_dir : String
  print_messages : Bool
  file_extension : String
deriving DecidableEq, Repr

/-- Exceptions `handle_DATA` can raise. -/
inductive PyError where
  | unicodeDecodeError : PyError
  | osError : String → PyError
deriving DecidableEq, Repr

/-- Observable filesystem side effect, recorded in program order. -/
inductive FsEvent where
  | mkdirEvt : String → FsEvent
  | appendEvt : String → String → FsEvent
deriving DecidableEq, Repr

/-- Selector for the write events of a trace. -/
def FsEvent.isAppendEvt : FsEvent → Bool
  | FsEvent.appendEvt _ _ => true
  | FsEvent.mkdirEvt _ => false

/-- Path targeted by a filesystem event. -/
def FsEvent.evtPath : FsEvent → String
  | FsEvent.mkdirEvt p => p
  | FsEvent.appendEvt p _ => p

/-- Whether path `p` lies inside directory `dir` (is a proper descendant,
written `dir/...`). -/
def pathUnder (dir p : String) : Bool :=
  (dir ++ "/").data.isPrefixOf p.data

/-- Filename built by the format string on line 57:
`"{:d}.{:s}.{:s}".format(int(time.time()), mail_from, self.file_extension)`. -/
def mailFileName (now : Nat) (mailFrom ext : String) : String :=
  toString now ++ "." ++ mailFrom ++ "." ++ ext

/-- Recipient subdirectory path `os.path.join(self.mail_dir, recipient)`. -/
def recDirPath (h : NullSMTPDHandler) (r : String) : String :=
  osPathJoin h.mail_dir r

/-- Destination path `os.path.join(self.mail_dir, recipient, mail_file)`
(Python folds the three-argument join left). -/
def recFilePath (h : NullSMTPDHandler) (now : Nat) (mailFrom r : String) : String :=
  osPathJoin (recDirPath h r) (mailFileName now mailFrom h.file_extension)

/-- Result of the recipient loop: filesystem, log lines emitted, event
trace, and the pending exception if the loop was aborted. -/
structure LoopResult where
  fs : FS
  log : List String
  events : List FsEvent
  err : Option PyError
deriving DecidableEq, Repr

/-- Recipient loop of `handle_DATA` (lines 55-65): for each recipient in
order, log, compute the path, ensure the subdirectory (uncaught `OSError`
aborts the loop), append the decoded body plus a newline, and echo the
body when `print_messages` is set. -/
def handleRecipients (h : NullSMTPDHandler) (now : Nat) (mailFrom data : String) :
    List String → FS → List String → List FsEvent → LoopResult
  | [], fs, log, evts => ⟨fs, log, evts, none⟩
  | r :: rs, fs, log, evts =>
    let log1 := log ++ ["Mail received for " ++ r]
    let dirPath := recDirPath h r
    let mailPath := recFilePath h now mailFrom r
    let ensured : Except String (FS × List FsEvent) :=
      if fsIsDir fs dirPath then Except.ok (fs, evts)
      else
        match fsMkdir fs dirPath with
        | Except.error p => Except.error p
        | Except.ok fs2 => Except.ok (fs2, evts ++ [FsEvent.mkdirEvt dirPath])
    match ensured with
    | Except.error p => ⟨fs, log1, evts, some (PyError.osError p)⟩
    | Except.ok (fs2, evts2) =>
      let fs3 := fsAppend fs2 mailPath (data ++ "\n")
      let evts3 := evts2 ++ [FsEvent.appendEvt mailPath (data ++ "\n")]
      let log2 := if h.print_messages then log1 ++ [data] else log1
      handleRecipients h now mailFrom data rs fs3 log2 evts3

deriving instance DecidableEq for Except

/-- Result of one `handle_DATA` call: final filesystem, log lines emitted
by this call, event trace, and reply or raised exception. -/
structure DataResult where
  fs : FS
  log : List String
  events : List FsEvent
  reply : Except PyError String
deriving DecidableEq, Repr

/-- Model of `NullSMTPDHandler.handle_DATA` (lines 46-66): decode the
body (a `UnicodeDecodeError` propagates before any side effect), log the
sender, run the recipient loop, and return `250 OK` when the loop
finished without an exception. -/
def handle_DATA (h : NullSMTPDHandler) (now : Nat) (envelope : Envelope) (fs : FS) :
    DataResult :=
  match pyDecodeUtf8 envelope.content with
  | none => ⟨fs, [], [], Except.error PyError.unicodeDecodeError⟩
  | some data =>
    let log0 := ["Incoming mail from " ++ envelope.mail_from]
    match handleRecipients h now envelope.mail_from data envelope.rcpt_tos fs log0 [] with
    | ⟨fs1, log1, evts, none⟩ => ⟨fs1, log1, evts, Except.ok "250 OK"⟩
    | ⟨fs1, log1, evts, some e⟩ => ⟨fs1, log1, evts, Except.error e⟩

/-- Value passed as `mail_dir` to the constructor, as a dynamically typed
Python value: `None`, a string, or anything else. -/
inductive PyValue where
  | pyNone : PyValue
  | pyStr : String → PyValue
  | pyOther : PyValue
deriving DecidableEq, Repr

/-- Error raised during startup. -/
inductive InitError where
  | systemExit : String → InitError
  | ioError : String → InitError
deriving DecidableEq, Repr

/-- Model of `NullSMTPDHandler.__init__` (lines 22-44): reject a `None`
or non-string `mail_dir` with `SystemExit`; create the mail directory if
absent, re-raising a creation failure; store the echo flag and the
extension with leading dots stripped. -/
def handlerInit (mail_dir : PyValue) (output_messages : Bool) (file_extension : String)
    (fs : FS) : Except InitError (NullSMTPDHandler × FS) :=
  match mail_dir with
  | PyValue.pyStr d =>
    if fsIsDir fs d then
      Except.ok (⟨d, output_messages, lstripDot file_extension⟩, fs)
    else
      match fsMkdir fs d with
      | Except.error p => Except.error (InitError.ioError p)
      | Except.ok fs1 => Except.ok (⟨d, output_messages, lstripDot file_extension⟩, fs1)
  | _ => Except.error (InitError.systemExit "Invalid mail_dir variable")

/-- Outcome of the startup sequence in `main`: either the controller was
started with a constructed handler, or startup raised first. -/
inductive StartupResult where
  | started : NullSMTPDHandler → FS → StartupResult
  | fatal : InitError → StartupResult
deriving DecidableEq, Repr

/-- Model of the startup part of `main` (lines 122-150): create the mail
directory if missing (an `OSError` propagates), construct the handler,
and only then start the controller.  Any exception before
`controller.start()` yields `fatal`. -/
def mainStartup (mail_dir_arg : String) (no_fork : Bool) (file_extension : String)
    (fs : FS) : StartupResult :=
  let step1 : Except InitError FS :=
    if fsIsDir fs mail_dir_arg then Except.ok fs
    else
      match fsMkdir fs mail_dir_arg with
      | Except.error p => Except.error (InitError.ioError p)
      | Except.ok fs1 => Except.ok fs1
  match step1 with
  | Except.error e => StartupResult.fatal e
  | Except.ok fs1 =>
    match handlerInit (PyValue.pyStr mail_dir_arg) no_fork file_extension fs1 with
    | Except.error e => StartupResult.fatal e
    | Except.ok (h, fs2) => StartupResult.started h fs2

/-! Helper lemmas about the filesystem model. -/

theorem fileLookup_cons (e : String × String) (l : List (String × String)) (p : String) :
    fileLookup (e :: l) p = if e.1 = p then some e.2 else fileLookup l p := by
  by_cases h : e.1 = p <;> simp [fileLookup, List.find?_cons, h]

theorem fileLookup_append_single (l : List (String × String)) (q s p : String) :
    fileLookup (l ++ [(q, s)]) p =
      match fileLookup l p with
      | some c => some c
      | none => if q = p then some s else none := by
  induction l with
  | nil => simp [fileLookup_cons, fileLookup]
  | cons e t ih =>
    by_cases h : e.1 = p <;> simp [fileLookup_cons, h, ih]

theorem fileLookup_map_upd (l : List (String × String)) (q c s p : String) :
    fileLookup (l.map (fun e => if e.1 = q then (e.1, c ++ s) else e)) p =
      if p = q then (fileLookup l q).map (fun _ => c ++ s) else fileLookup l p := by
  induction l with
  | nil => simp [fileLookup]
  | cons e t ih =>
    by_cases h1 : e.1 = p <;> by_cases h2 : p = q <;>
      by_cases h3 : e.1 = q <;>
      simp_all [fileLookup_cons]

theorem fsLookup_fsAppend (fs : FS) (q s p : String) :
    fsLookup (fsAppend fs q s) p =
      if p = q then some (((fsLookup fs q).getD "") ++ s) else fsLookup fs p := by
  unfold fsAppend
  cases hq : fsLookup fs q with
  | some c =>
    show fileLookup _ p = _
    rw [show (({ fs with files := fs.files.map _ } : FS)).files = fs.files.map
      (fun e => if e.1 = q then (e.1, c ++ s) else e) from rfl, fileLookup_map_upd]
    simp only [fsLookup] at hq
    by_cases h : p = q <;> simp [fsLookup, h, hq]
  | none =>
    show fileLookup _ p = _
    rw [show (({ fs with files := fs.files ++ [(q, s)] } : FS)).files
      = fs.files ++ [(q, s)] from rfl, fileLookup_append_single]
    simp only [fsLookup] at hq
    by_cases h : p = q
    · simp [fsLookup, h, hq]
    · cases hp : fileLookup fs.files p <;>
        simp [fsLookup, h, hq, hp]
      exact fun he => h he.symm

theorem fsAppend_files_length (fs : FS) (q s : String) :
    (fsAppend fs q s).files.length =
      if fsIsFile fs q then fs.files.length else fs.files.length + 1 := by
  unfold fsAppend fsIsFile
  cases hq : fsLookup fs q <;> simp [hq]

theorem fsAppend_dirs (fs : FS) (q s : String) : (fsAppend fs q s).dirs = fs.dirs := by
  unfold fsAppend
  cases hq : fsLookup fs q <;> simp

theorem fsMkdir_ok (fs : FS) (p : String) (fs' : FS) (h : fsMkdir fs p = Except.ok fs') :
    fs'.files = fs.files ∧ fs'.dirs = p :: fs.dirs := by
  unfold fsMkdir at h
  by_cases hc : fsIsFile fs p ∨ fsIsDir fs p <;> simp [hc] at h
  exact ⟨by rw [← h], by rw [← h]⟩

theorem fsMkdir_error_iff (fs : FS) (p q : String) :
    fsMkdir fs p = Except.error q ↔ (fsIsFile fs p ∨ fsIsDir fs p) ∧ q = p := by
  unfold fsMkdir
  by_cases hc : fsIsFile fs p ∨ fsIsDir fs p
  · rw [if_pos hc]
    simp only [Except.error.injEq]
    exact ⟨fun h => ⟨hc, h.symm⟩, fun h => h.2.symm⟩
  · rw [if_neg hc]
    simp [hc]

/-! Helper lemmas about the recipient loop. -/

theorem fsLookup_dirs_cons (fs : FS) (x p : String) :
    fsLookup { fs with dirs := x :: fs.dirs } p = fsLookup fs p := rfl

theorem handleRecipients_cons_isdir (h : NullSMTPDHandler) (now : Nat) (mf d r : String)
    (rs : List String) (fs : FS) (log : List String) (evts : List FsEvent)
    (hd : fsIsDir fs (recDirPath h r) = true) :
    handleRecipients h now mf d (r :: rs) fs log evts =
      handleRecipients h now mf d rs
        (fsAppend fs (recFilePath h now mf r) (d ++ "\n"))
        (if h.print_messages then (log ++ ["Mail received for " ++ r]) ++ [d]
          else log ++ ["Mail received for " ++ r])
        (evts ++ [FsEvent.appendEvt (recFilePath h now mf r) (d ++ "\n")]) := by
  simp [handleRecipients, hd]

theorem handleRecipients_cons_mkdir (h : NullSMTPDHandler) (now : Nat) (mf d r : String)
    (rs : List String) (fs : FS) (log : List String) (evts : List FsEvent)
    (hd : fsIsDir fs (recDirPath h r) = false)
    (hf : fsIsFile fs (recDirPath h r) = false) :
    handleRecipients h now mf d (r :: rs) fs log evts =
      handleRecipients h now mf d rs
        (fsAppend { fs with dirs := recDirPath h r :: fs.dirs }
          (recFilePath h now mf r) (d ++ "\n"))
        (if h.print_messages then (log ++ ["Mail received for " ++ r]) ++ [d]
          else log ++ ["Mail received for " ++ r])
        ((evts ++ [FsEvent.mkdirEvt (recDirPath h r)]) ++
          [FsEvent.appendEvt (recFilePath h now mf r) (d ++ "\n")]) := by
  have hmk : fsMkdir fs (recDirPath h r) =
      Except.ok { fs with dirs := recDirPath h r :: fs.dirs } := by
    unfold fsMkdir
    rw [if_neg]
    simp [hf, hd]
  simp [handleRecipients, hd, hmk]

theorem handleRecipients_mkdir_fail (h : NullSMTPDHandler) (now : Nat) (mf d r : String)
    (rs : List String) (fs : FS) (log : List String) (evts : List FsEvent)
    (hd : fsIsDir fs (recDirPath h r) = false)
    (hf : fsIsFile fs (recDirPath h r) = true) :
    handleRecipients h now mf d (r :: rs) fs log evts =
      ⟨fs, log ++ ["Mail received for " ++ r], evts,
        some (PyError.osError (recDirPath h r))⟩ := by
  have hmk : fsMkdir fs (recDirPath h r) = Except.error (recDirPath h r) :=
    (fsMkdir_error_iff fs (recDirPath h r) (recDirPath h r)).mpr ⟨Or.inl hf, rfl⟩
  simp [handleRecipients, hd, hmk]

theorem handleRecipients_append_split (h : NullSMTPDHandler) (now : Nat) (mf d : String)
    (l1 l2 : List String) (fs : FS) (log : List String) (evts : List FsEvent) :
    handleRecipients h now mf d (l1 ++ l2) fs log evts =
      (match handleRecipients h now mf d l1 fs log evts with
       | ⟨fs1, log1, evts1, none⟩ => handleRecipients h now mf d l2 fs1 log1 evts1
       | m => m) := by
  induction l1 generalizing fs log evts with
  | nil => simp [handleRecipients]
  | cons r rs ih =>
    rw [List.cons_append]
    cases hd : fsIsDir fs (recDirPath h r) with
    | true =>
      rw [handleRecipients_cons_isdir h now mf d r (rs ++ l2) fs log evts hd,
        handleRecipients_cons_isdir h now mf d r rs fs log evts hd]
      exact ih _ _ _
    | false =>
      cases hf : fsIsFile fs (recDirPath h r) with
      | false =>
        rw [handleRecipients_cons_mkdir h now mf d r (rs ++ l2) fs log evts hd hf,
          handleRecipients_cons_mkdir h now mf d r rs fs log evts hd hf]
        exact ih _ _ _
      | true =>
        rw [handleRecipients_mkdir_fail h now mf d r (rs ++ l2) fs log evts hd hf,
          handleRecipients_mkdir_fail h now mf d r rs fs log evts hd hf]

theorem handleRecipients_ok_trace (h : NullSMTPDHandler) (now : Nat) (mf d : String)
    (rcpts : List String) (fs : FS) (log : List String) (evts : List FsEvent)
    (hok : (handleRecipients h now mf d rcpts fs log evts).err = none) :
    (handleRecipients h now mf d rcpts fs log evts).events.filter FsEvent.isAppendEvt =
      evts.filter FsEvent.isAppendEvt ++
        rcpts.map (fun r => FsEvent.appendEvt (recFilePath h now mf r) (d ++ "\n")) := by
  induction rcpts generalizing fs log evts with
  | nil => simp [handleRecipients]
  | cons r rs ih =>
    cases hd : fsIsDir fs (recDirPath h r) with
    | true =>
      rw [handleRecipients_cons_isdir h now mf d r rs fs log evts hd] at hok ⊢
      rw [ih _ _ _ hok]
      simp [List.filter_append, FsEvent.isAppendEvt]
    | false =>
      cases hf : fsIsFile fs (recDirPath h r) with
      | false =>
        rw [handleRecipients_cons_mkdir h now mf d r rs fs log evts hd hf] at hok ⊢
        rw [ih _ _ _ hok]
        simp [List.filter_append, FsEvent.isAppendEvt]
      | true =>
        rw [handleRecipients_mkdir_fail h now mf d r rs fs log evts hd hf] at hok
        simp at hok

theorem handleRecipients_preserves_suffix (h : NullSMTPDHandler) (now : Nat)
    (mf d : String) (rcpts : List String) (p : String) (fs : FS) (log : List String)
    (evts : List FsEvent)
    (hp : ∃ pre, fsLookup fs p = some (pre ++ (d ++ "\n"))) :
    ∃ pre, fsLookup (handleRecipients h now mf d rcpts fs log evts).fs p =
      some (pre ++ (d ++ "\n")) := by
  induction rcpts generalizing fs log evts with
  | nil => exact hp
  | cons r rs ih =>
    cases hd : fsIsDir fs (recDirPath h r) with
    | true =>
      rw [handleRecipients_cons_isdir h now mf d r rs fs log evts hd]
      refine ih _ _ _ ?_
      rw [fsLookup_fsAppend]
      by_cases hpq : p = recFilePath h now mf r
      · rw [if_pos hpq]
        exact ⟨(fsLookup fs (recFilePath h now mf r)).getD "", rfl⟩
      · rw [if_neg hpq]
        exact hp
    | false =>
      cases hf : fsIsFile fs (recDirPath h r) with
      | false =>
        rw [handleRecipients_cons_mkdir h now mf d r rs fs log evts hd hf]
        refine ih _ _ _ ?_
        rw [fsLookup_fsAppend]
        by_cases hpq : p = recFilePath h now mf r
        · rw [if_pos hpq]
          exact ⟨_, rfl⟩
        · rw [if_neg hpq]
          exact hp
      | true =>
        rw [handleRecipients_mkdir_fail h now mf d r rs fs log evts hd hf]
        exact hp

theorem handleRecipients_ok_written (h : NullSMTPDHandler) (now : Nat) (mf d : String)
    (rcpts : List String) (fs : FS) (log : List String) (evts : List FsEvent)
    (hok : (handleRecipients h now mf d rcpts fs log evts).err = none) :
    ∀ r ∈ rcpts, ∃ pre,
      fsLookup (handleRecipients h now mf d rcpts fs log evts).fs
        (recFilePath h now mf r) = some (pre ++ (d ++ "\n")) := by
  induction rcpts generalizing fs log evts with
  | nil => intro r hr; simp at hr
  | cons r0 rs ih =>
    intro r hr
    cases hd : fsIsDir fs (recDirPath h r0) with
    | true =>
      rw [handleRecipients_cons_isdir h now mf d r0 rs fs log evts hd] at hok ⊢
      rcases List.mem_cons.mp hr with hr0 | hrs
      · subst hr0
        apply handleRecipients_preserves_suffix
        rw [fsLookup_fsAppend]
        rw [if_pos rfl]
        exact ⟨_, rfl⟩
      · exact ih _ _ _ hok r hrs
    | false =>
      cases hf : fsIsFile fs (recDirPath h r0) with
      | false =>
        rw [handleRecipients_cons_mkdir h now mf d r0 rs fs log evts hd hf] at hok ⊢
        rcases List.mem_cons.mp hr with hr0 | hrs
        · subst hr0
          apply handleRecipients_preserves_suffix
          rw [fsLookup_fsAppend]
          rw [if_pos rfl]
          exact ⟨_, rfl⟩
        · exact ih _ _ _ hok r hrs
      | true =>
        rw [handleRecipients_mkdir_fail h now mf d r0 rs fs log evts hd hf] at hok
        simp at hok

theorem handle_DATA_eq (h : NullSMTPDHandler) (now : Nat) (envelope : Envelope)
    (fs : FS) (d : String) (hdec : pyDecodeUtf8 envelope.content = some d) :
    handle_DATA h now envelope fs =
      ⟨(handleRecipients h now envelope.mail_from d envelope.rcpt_tos fs
          ["Incoming mail from " ++ envelope.mail_from] []).fs,
        (handleRecipients h now envelope.mail_from d envelope.rcpt_tos fs
          ["Incoming mail from " ++ envelope.mail_from] []).log,
        (handleRecipients h now envelope.mail_from d envelope.rcpt_tos fs
          ["Incoming mail from " ++ envelope.mail_from] []).events,
        match (handleRecipients h now envelope.mail_from d envelope.rcpt_tos fs
          ["Incoming mail from " ++ envelope.mail_from] []).err with
        | none => Except.ok "250 OK"
        | some e => Except.error e⟩ := by
  cases hres : handleRecipients h now envelope.mail_from d envelope.rcpt_tos fs
      ["Incoming mail from " ++ envelope.mail_from] [] with
  | mk fs1 log1 evts1 err1 =>
    cases err1 <;> simp [handle_DATA, hdec, hres]

/-- C9: when the envelope body is not valid UTF-8, `handle_DATA` raises
`UnicodeDecodeError` before any side effect: the filesystem is returned
unchanged, no event happens, and no log line is emitted, because the
decode on line 52 precedes the recipient loop. -/
theorem claim_C9 (h : NullSMTPDHandler) (now : Nat) (envelope : Envelope) (fs : FS)
    (hdec : pyDecodeUtf8 envelope.content = none) :
    handle_DATA h now envelope fs =
      ⟨fs, [], [], Except.error PyError.unicodeDecodeError⟩ := by
  unfold handle_DATA
  rw [hdec]

theorem claim_C9_witness :
    handle_DATA ⟨"/mail", false, "eml"⟩ 100 ⟨"a", ["r1"], [255]⟩ ⟨["/mail"], []⟩ =
      ⟨⟨["/mail"], []⟩, [], [], Except.error PyError.unicodeDecodeError⟩ :=
  claim_C9 ⟨"/mail", false, "eml"⟩ 100 ⟨"a", ["r1"], [255]⟩ ⟨["/mail"], []⟩ (by decide)

/-- C6: when the subdirectory for a recipient cannot be created (its path
already exists as a regular file), the iteration for that recipient stops
with the `OSError` for that path and the filesystem is exactly the one it
started the iteration with: no directory and no file is created or
written for that recipient. -/
theorem claim_C6 (h : NullSMTPDHandler) (now : Nat) (mf d r : String) (rs : List String)
    (fs : FS) (log : List String) (evts : List FsEvent)
    (hd : fsIsDir fs (recDirPath h r) = false)
    (hf : fsIsFile fs (recDirPath h r) = true) :
    (handleRecipients h now mf d (r :: rs) fs log evts).fs = fs ∧
    (handleRecipients h now mf d (r :: rs) fs log evts).events = evts ∧
    (handleRecipients h now mf d (r :: rs) fs log evts).err =
      some (PyError.osError (recDirPath h r)) := by
  rw [handleRecipients_mkdir_fail h now mf d r rs fs log evts hd hf]
  exact ⟨rfl, rfl, rfl⟩

theorem claim_C6_witness :
    (handleRecipients ⟨"/mail", false, "eml"⟩ 100 "a" "hi" ["r1"]
        ⟨["/mail"], [("/mail/r1", "blocked")]⟩ [] []).fs =
      ⟨["/mail"], [("/mail/r1", "blocked")]⟩ ∧
    (handleRecipients ⟨"/mail", false, "eml"⟩ 100 "a" "hi" ["r1"]
        ⟨["/mail"], [("/mail/r1", "blocked")]⟩ [] []).events = [] ∧
    (handleRecipients ⟨"/mail", false, "eml"⟩ 100 "a" "hi" ["r1"]
        ⟨["/mail"], [("/mail/r1", "blocked")]⟩ [] []).err =
      some (PyError.osError (recDirPath ⟨"/mail", false, "eml"⟩ "r1")) :=
  claim_C6 ⟨"/mail", false, "eml"⟩ 100 "a" "hi" "r1" []
    ⟨["/mail"], [("/mail/r1", "blocked")]⟩ [] [] (by decide) (by decide)

theorem head_dropWhile_dot (l : List Char) :
    (l.dropWhile (fun c => c = '.')).head? = some '.' → False := by
  induction l with
  | nil => simp [List.dropWhile]
  | cons c t ih =>
    by_cases hc : c = '.'
    · simpa [List.dropWhile, hc] using ih
    · simp [List.dropWhile, hc]

/-- C10: the constructor stores `file_extension.lstrip(".")`, so the
stored extension never begins with a dot, and the generated filename is
exactly `<unix-seconds>.<sender>.<extension>` with the two separating
dots contributed by the format string. -/
theorem claim_C10 (ext : String) (om : Bool) (dir : String) (fs : FS) :
    ((lstripDot ext).data.head? = some '.' → False) ∧
    (∀ h fs1, handlerInit (PyValue.pyStr dir) om ext fs = Except.ok (h, fs1) →
      h.file_extension = lstripDot ext) ∧
    (∀ mf : String, ∀ n : Nat, mailFileName n mf (lstripDot ext) =
      toString n ++ "." ++ mf ++ "." ++ lstripDot ext) := by
  refine ⟨head_dropWhile_dot ext.data, ?_, fun mf n => rfl⟩
  intro h fs1 hinit
  by_cases hd : fsIsDir fs dir
  · simp [handlerInit, hd] at hinit
    rw [← hinit.1]
  · cases hmk : fsMkdir fs dir with
    | error p => simp [handlerInit, hd, hmk] at hinit
    | ok fs2 =>
      simp [handlerInit, hd, hmk] at hinit
      rw [← hinit.1]

theorem claim_C10_witness :
    ((lstripDot "..eml").data.head? = some '.' → False) ∧
    (lstripDot "..eml" = "eml" ∧
      handlerInit (PyValue.pyStr "/mail") false "..eml" ⟨["/mail"], []⟩ =
        Except.ok (⟨"/mail", false, "eml"⟩, ⟨["/mail"], []⟩)) ∧
    mailFileName 100 "a" (lstripDot "..eml") =
      toString 100 ++ "." ++ "a" ++ "." ++ lstripDot "..eml" :=
  ⟨(claim_C10 "..eml" false "/mail" ⟨["/mail"], []⟩).1,
    ⟨by decide, by decide⟩,
    (claim_C10 "..eml" false "/mail" ⟨["/mail"], []⟩).2.2 "a" 100⟩

/-- C1: for every completed envelope whose body decodes to `d`, when the
persistence step succeeds, the write-event trace is exactly one append
per recipient, in envelope order, at path
`os.path.join(mailDir, recipient, <unix-seconds>.<sender>.<extension>)`,
whose appended content is the body followed by exactly one trailing
newline. -/
theorem claim_C1 (h : NullSMTPDHandler) (now : Nat) (envelope : Envelope) (fs : FS)
    (d : String) (hdec : pyDecodeUtf8 envelope.content = some d)
    (hok : (handle_DATA h now envelope fs).reply = Except.ok "250 OK") :
    (handle_DATA h now envelope fs).events.filter FsEvent.isAppendEvt =
      envelope.rcpt_tos.map (fun r =>
        FsEvent.appendEvt
          (osPathJoin (osPathJoin h.mail_dir r)
            (toString now ++ "." ++ envelope.mail_from ++ "." ++ h.file_extension))
          (d ++ "\n")) := by
  rw [handle_DATA_eq h now envelope fs d hdec] at hok ⊢
  cases herr : (handleRecipients h now envelope.mail_from d envelope.rcpt_tos fs
      ["Incoming mail from " ++ envelope.mail_from] []).err with
  | some e => rw [herr] at hok; simp at hok
  | none =>
    have ht := handleRecipients_ok_trace h now envelope.mail_from d envelope.rcpt_tos fs
      ["Incoming mail from " ++ envelope.mail_from] [] herr
    simpa [recFilePath, recDirPath, mailFileName] using ht

theorem claim_C1_witness :
    pyDecodeUtf8 [104, 105] = some "hi" ∧
    (handle_DATA ⟨"/mail", false, "eml"⟩ 100 ⟨"a", ["r1", "r2"], [104, 105]⟩
        ⟨["/mail"], []⟩).reply = Except.ok "250 OK" ∧
    (handle_DATA ⟨"/mail", false, "eml"⟩ 100 ⟨"a", ["r1", "r2"], [104, 105]⟩
        ⟨["/mail"], []⟩).events.filter FsEvent.isAppendEvt =
      ["r1", "r2"].map (fun r =>
        FsEvent.appendEvt
          (osPathJoin (osPathJoin "/mail" r) (toString 100 ++ "." ++ "a" ++ "." ++ "eml"))
          ("hi" ++ "\n")) :=
  ⟨by decide, by decide,
    claim_C1 ⟨"/mail", false, "eml"⟩ 100 ⟨"a", ["r1", "r2"], [104, 105]⟩ ⟨["/mail"], []⟩
      "hi" (by decide) (by decide)⟩

/-- C3: the `250 OK` reply is produced only when the loop finished, and
then the record of every recipient of the envelope has been written: its
destination file exists and ends with the body plus one newline.  When
persistence raised for some recipient, the reply is that exception, never
the success reply. -/
theorem claim_C3 (h : NullSMTPDHandler) (now : Nat) (envelope : Envelope) (fs : FS)
    (d : String) (hdec : pyDecodeUtf8 envelope.content = some d) :
    ∀ reply, (handle_DATA h now envelope fs).reply = Except.ok reply →
      reply = "250 OK" ∧
      ∀ r ∈ envelope.rcpt_tos, ∃ pre,
        fsLookup (handle_DATA h now envelope fs).fs
          (osPathJoin (osPathJoin h.mail_dir r)
            (toString now ++ "." ++ envelope.mail_from ++ "." ++ h.file_extension)) =
          some (pre ++ (d ++ "\n")) := by
  intro reply hok
  rw [handle_DATA_eq h now envelope fs d hdec] at hok ⊢
  cases herr : (handleRecipients h now envelope.mail_from d envelope.rcpt_tos fs
      ["Incoming mail from " ++ envelope.mail_from] []).err with
  | some e => rw [herr] at hok; simp at hok
  | none =>
    rw [herr] at hok
    simp only [Except.ok.injEq] at hok
    refine ⟨hok.symm, ?_⟩
    intro r hr
    have hw := handleRecipients_ok_written h now envelope.mail_from d envelope.rcpt_tos fs
      ["Incoming mail from " ++ envelope.mail_from] [] herr r hr
    simpa [recFilePath, recDirPath, mailFileName] using hw

theorem claim_C3_witness :
    "250 OK" = "250 OK" ∧
    ∀ r ∈ ["r1", "r2"], ∃ pre,
      fsLookup (handle_DATA ⟨"/mail", false, "eml"⟩ 100
          ⟨"a", ["r1", "r2"], [104, 105]⟩ ⟨["/mail"], []⟩).fs
        (osPathJoin (osPathJoin "/mail" r) (toString 100 ++ "." ++ "a" ++ "." ++ "eml")) =
        some (pre ++ ("hi" ++ "\n")) :=
  claim_C3 ⟨"/mail", false, "eml"⟩ 100 ⟨"a", ["r1", "r2"], [104, 105]⟩ ⟨["/mail"], []⟩
    "hi" (by decide) "250 OK" (by decide)

/-- C7: on success the write events target, in order, exactly the paths
of the recipients in the order they appear in `rcpt_tos`; and an append
to an existing file keeps the existing content as a prefix and puts the
new content after it, so repeated appends to one file accumulate in
arrival order. -/
theorem claim_C7 (h : NullSMTPDHandler) (now : Nat) (envelope : Envelope) (fs : FS)
    (d : String) (hdec : pyDecodeUtf8 envelope.content = some d)
    (hok : (handle_DATA h now envelope fs).reply = Except.ok "250 OK") :
    ((handle_DATA h now envelope fs).events.filter FsEvent.isAppendEvt).map
        FsEvent.evtPath =
      envelope.rcpt_tos.map (fun r =>
        osPathJoin (osPathJoin h.mail_dir r)
          (toString now ++ "." ++ envelope.mail_from ++ "." ++ h.file_extension)) ∧
    (∀ fs2 : FS, ∀ p s : String,
      fsLookup (fsAppend fs2 p s) p = some (((fsLookup fs2 p).getD "") ++ s)) := by
  constructor
  · rw [handle_DATA_eq h now envelope fs d hdec] at hok ⊢
    cases herr : (handleRecipients h now envelope.mail_from d envelope.rcpt_tos fs
        ["Incoming mail from " ++ envelope.mail_from] []).err with
    | some e => rw [herr] at hok; simp at hok
    | none =>
      have ht := handleRecipients_ok_trace h now envelope.mail_from d envelope.rcpt_tos fs
        ["Incoming mail from " ++ envelope.mail_from] [] herr
      have hmap := congrArg (List.map FsEvent.evtPath) ht
      simpa [recFilePath, recDirPath, mailFileName, List.map_map,
        FsEvent.evtPath, Function.comp] using hmap
  · intro fs2 p s
    rw [fsLookup_fsAppend]
    simp

theorem claim_C7_witness :
    ((handle_DATA ⟨"/mail", false, "eml"⟩ 100 ⟨"a", ["r1", "r2"], [104, 105]⟩
        ⟨["/mail"], []⟩).events.filter FsEvent.isAppendEvt).map FsEvent.evtPath =
      ["r1", "r2"].map (fun r =>
        osPathJoin (osPathJoin "/mail" r) (toString 100 ++ "." ++ "a" ++ "." ++ "eml")) ∧
    (∀ fs2 : FS, ∀ p s : String,
      fsLookup (fsAppend fs2 p s) p = some (((fsLookup fs2 p).getD "") ++ s)) :=
  claim_C7 ⟨"/mail", false, "eml"⟩ 100 ⟨"a", ["r1", "r2"], [104, 105]⟩ ⟨["/mail"], []⟩
    "hi" (by decide) (by decide)

/-- C2 (counterexample): with recipients `[r1, r2]` where the directory
creation for `r1` fails (path collides with a regular file), `handle_DATA`
aborts with the exception: `r2` is not processed — its file is absent, no
event at all happened, and no log line for `r2` was emitted.  This
contradicts the claim that one recipient's failure does not prevent the
remaining recipients from being processed. -/
theorem claim_C2_counterexample :
    (handle_DATA ⟨"/mail", false, "eml"⟩ 100 ⟨"a", ["r1", "r2"], [104, 105]⟩
        ⟨["/mail"], [("/mail/r1", "blocked")]⟩).reply =
      Except.error (PyError.osError "/mail/r1") ∧
    fsLookup (handle_DATA ⟨"/mail", false, "eml"⟩ 100 ⟨"a", ["r1", "r2"], [104, 105]⟩
        ⟨["/mail"], [("/mail/r1", "blocked")]⟩).fs "/mail/r2/100.a.eml" = none ∧
    (handle_DATA ⟨"/mail", false, "eml"⟩ 100 ⟨"a", ["r1", "r2"], [104, 105]⟩
        ⟨["/mail"], [("/mail/r1", "blocked")]⟩).events = [] ∧
    "Mail received for r2" ∉ (handle_DATA ⟨"/mail", false, "eml"⟩ 100
        ⟨"a", ["r1", "r2"], [104, 105]⟩ ⟨["/mail"], [("/mail/r1", "blocked")]⟩).log := by
  decide

/-- C2 (amended): there is no per-recipient outcome sequence — the loop
has no exception handling, so a directory-creation failure for one
recipient aborts `handle_DATA` with an `OSError` naming that recipient's
path; the state is exactly the state reached after the earlier
recipients, and the recipients after the failing one are not processed at
all. -/
theorem claim_C2_amended (h : NullSMTPDHandler) (now : Nat) (mf : String)
    (bs : List Nat) (d : String) (pre post : List String) (r : String) (fs : FS)
    (hdec : pyDecodeUtf8 bs = some d)
    (hpre : (handleRecipients h now mf d pre fs
      ["Incoming mail from " ++ mf] []).err = none)
    (hd : fsIsDir (handleRecipients h now mf d pre fs
      ["Incoming mail from " ++ mf] []).fs (osPathJoin h.mail_dir r) = false)
    (hf : fsIsFile (handleRecipients h now mf d pre fs
      ["Incoming mail from " ++ mf] []).fs (osPathJoin h.mail_dir r) = true) :
    handle_DATA h now ⟨mf, pre ++ r :: post, bs⟩ fs =
      ⟨(handleRecipients h now mf d pre fs ["Incoming mail from " ++ mf] []).fs,
        (handleRecipients h now mf d pre fs ["Incoming mail from " ++ mf] []).log ++
          ["Mail received for " ++ r],
        (handleRecipients h now mf d pre fs ["Incoming mail from " ++ mf] []).events,
        Except.error (PyError.osError (osPathJoin h.mail_dir r))⟩ := by
  rw [handle_DATA_eq h now ⟨mf, pre ++ r :: post, bs⟩ fs d hdec]
  cases hm : handleRecipients h now mf d pre fs ["Incoming mail from " ++ mf] [] with
  | mk fs1 log1 evts1 err1 =>
    rw [hm] at hpre hd hf
    have he : err1 = none := hpre
    subst he
    have hfail := handleRecipients_mkdir_fail h now mf d r post fs1 log1 evts1 hd hf
    have hloop : handleRecipients h now mf d (pre ++ r :: post) fs
        ["Incoming mail from " ++ mf] [] =
        ⟨fs1, log1 ++ ["Mail received for " ++ r], evts1,
          some (PyError.osError (osPathJoin h.mail_dir r))⟩ := by
      rw [handleRecipients_append_split, hm]
      exact hfail
    rw [hloop]

theorem claim_C2_amended_witness :
    handle_DATA ⟨"/mail", false, "eml"⟩ 100 ⟨"a", ["r0"] ++ "r1" :: ["r2"], [104, 105]⟩
        ⟨["/mail"], [("/mail/r1", "blocked")]⟩ =
      ⟨(handleRecipients ⟨"/mail", false, "eml"⟩ 100 "a" "hi" ["r0"]
          ⟨["/mail"], [("/mail/r1", "blocked")]⟩ ["Incoming mail from " ++ "a"] []).fs,
        (handleRecipients ⟨"/mail", false, "eml"⟩ 100 "a" "hi" ["r0"]
          ⟨["/mail"], [("/mail/r1", "blocked")]⟩ ["Incoming mail from " ++ "a"] []).log ++
          ["Mail received for " ++ "r1"],
        (handleRecipients ⟨"/mail", false, "eml"⟩ 100 "a" "hi" ["r0"]
          ⟨["/mail"], [("/mail/r1", "blocked")]⟩ ["Incoming mail from " ++ "a"] []).events,
        Except.error (PyError.osError (osPathJoin "/mail" "r1"))⟩ :=
  claim_C2_amended ⟨"/mail", false, "eml"⟩ 100 "a" [104, 105] "hi" ["r0"] ["r2"] "r1"
    ⟨["/mail"], [("/mail/r1", "blocked")]⟩ (by decide) (by decide) (by decide) (by decide)

/-- C5 (counterexample): the recipient string `/evil` is passed unchecked
into the path join, so the transaction succeeds and the record is written
at `/evil/7.a.eml`, which is not under the configured mail directory
`/mail`.  This contradicts the claim that persistence sanitizes or
rejects recipient names so that no record is written outside `mailDir`. -/
theorem claim_C5_counterexample :
    (handle_DATA ⟨"/mail", false, "eml"⟩ 7 ⟨"a", ["/evil"], [104, 105]⟩
        ⟨["/mail"], []⟩).reply = Except.ok "250 OK" ∧
    (handle_DATA ⟨"/mail", false, "eml"⟩ 7 ⟨"a", ["/evil"], [104, 105]⟩
        ⟨["/mail"], []⟩).events =
      [FsEvent.mkdirEvt "/evil", FsEvent.appendEvt "/evil/7.a.eml" "hi\n"] ∧
    fsLookup (handle_DATA ⟨"/mail", false, "eml"⟩ 7 ⟨"a", ["/evil"], [104, 105]⟩
        ⟨["/mail"], []⟩).fs "/evil/7.a.eml" = some "hi\n" ∧
    pathUnder "/mail" "/evil/7.a.eml" = false ∧
    pathUnder "/mail" "/evil" = false := by
  decide

/-- C5 (amended): the recipient string is passed unchecked into the path
join — nothing sanitizes or rejects it.  For any recipient beginning with
the path separator, the computed "subdirectory" path is the recipient
string itself, the configured mail directory being discarded, and the
record file path hangs under that escaped path. -/
theorem claim_C5_amended (h : NullSMTPDHandler) (r : String)
    (hr : r.data.head? = some '/') :
    recDirPath h r = r ∧
    ∀ now mf, recFilePath h now mf r =
      osPathJoin r (mailFileName now mf h.file_extension) := by
  have h1 : osPathJoin h.mail_dir r = r := by
    unfold osPathJoin
    rw [if_pos hr]
  refine ⟨h1, fun now mf => ?_⟩
  unfold recFilePath
  rw [show recDirPath h r = r from h1]

theorem claim_C5_amended_witness :
    recDirPath ⟨"/mail", false, "eml"⟩ "/evil" = "/evil" ∧
    ∀ now mf, recFilePath ⟨"/mail", false, "eml"⟩ now mf "/evil" =
      osPathJoin "/evil" (mailFileName now mf "eml") :=
  claim_C5_amended ⟨"/mail", false, "eml"⟩ "/evil" (by decide)

theorem handle_DATA_single (h : NullSMTPDHandler) (now : Nat) (s r : String)
    (bs : List Nat) (d : String) (fs : FS) (hdec : pyDecodeUtf8 bs = some d)
    (hgood : fsIsDir fs (recDirPath h r) = true ∨ fsIsFile fs (recDirPath h r) = false) :
    (handle_DATA h now ⟨s, [r], bs⟩ fs).reply = Except.ok "250 OK" ∧
    (handle_DATA h now ⟨s, [r], bs⟩ fs).fs =
      fsAppend (if fsIsDir fs (recDirPath h r) then fs
          else { fs with dirs := recDirPath h r :: fs.dirs })
        (recFilePath h now s r) (d ++ "\n") := by
  rw [handle_DATA_eq h now ⟨s, [r], bs⟩ fs d hdec]
  cases hd : fsIsDir fs (recDirPath h r) with
  | true =>
    rw [handleRecipients_cons_isdir h now s d r [] fs ["Incoming mail from " ++ s] [] hd]
    simp [handleRecipients]
  | false =>
    have hf : fsIsFile fs (recDirPath h r) = false := by
      rcases hgood with hg | hg
      · rw [hd] at hg; cases hg
      · exact hg
    rw [handleRecipients_cons_mkdir h now s d r [] fs ["Incoming mail from " ++ s] [] hd hf]
    simp [handleRecipients]

/-- C4: two transactions in the same wall-clock second with the same
sender, recipient and extension, starting from a state where the
destination file does not exist, produce two success replies and a single
file (one new file overall) whose content is the first body, newline,
then the second body, newline — the second call appends to and never
overwrites the first call's content. -/
theorem claim_C4 (h : NullSMTPDHandler) (now : Nat) (s r : String) (b1 b2 : List Nat)
    (d1 d2 : String) (fs0 : FS)
    (hdec1 : pyDecodeUtf8 b1 = some d1) (hdec2 : pyDecodeUtf8 b2 = some d2)
    (hfresh : fsLookup fs0 (recFilePath h now s r) = none)
    (hnofile : fsIsFile fs0 (recDirPath h r) = false) :
    (handle_DATA h now ⟨s, [r], b1⟩ fs0).reply = Except.ok "250 OK" ∧
    (handle_DATA h now ⟨s, [r], b2⟩
        (handle_DATA h now ⟨s, [r], b1⟩ fs0).fs).reply = Except.ok "250 OK" ∧
    fsLookup (handle_DATA h now ⟨s, [r], b2⟩
        (handle_DATA h now ⟨s, [r], b1⟩ fs0).fs).fs (recFilePath h now s r) =
      some ((d1 ++ "\n") ++ (d2 ++ "\n")) ∧
    (handle_DATA h now ⟨s, [r], b2⟩
        (handle_DATA h now ⟨s, [r], b1⟩ fs0).fs).fs.files.length =
      fs0.files.length + 1 := by
  obtain ⟨hrep1, hfs1⟩ :=
    handle_DATA_single h now s r b1 d1 fs0 hdec1 (Or.inr hnofile)
  have hfs1d_lookup : fsLookup (if fsIsDir fs0 (recDirPath h r) then fs0
      else { fs0 with dirs := recDirPath h r :: fs0.dirs }) (recFilePath h now s r) =
      none := by
    split <;> exact hfresh
  have hlook1 : fsLookup (handle_DATA h now ⟨s, [r], b1⟩ fs0).fs (recFilePath h now s r) =
      some ("" ++ (d1 ++ "\n")) := by
    rw [hfs1, fsLookup_fsAppend, if_pos rfl, hfs1d_lookup]
    rfl
  have hdirApp : ∀ (fsx : FS) (p sx q : String),
      fsIsDir (fsAppend fsx p sx) q = fsIsDir fsx q := by
    intro fsx p sx q
    unfold fsIsDir
    rw [fsAppend_dirs]
  have hdir1 : fsIsDir (handle_DATA h now ⟨s, [r], b1⟩ fs0).fs (recDirPath h r) = true := by
    rw [hfs1, hdirApp]
    cases hd : fsIsDir fs0 (recDirPath h r) with
    | true => simpa using hd
    | false => simp [fsIsDir]
  obtain ⟨hrep2, hfs2⟩ :=
    handle_DATA_single h now s r b2 d2 (handle_DATA h now ⟨s, [r], b1⟩ fs0).fs hdec2
      (Or.inl hdir1)
  refine ⟨hrep1, hrep2, ?_, ?_⟩
  · rw [hfs2, if_pos hdir1, fsLookup_fsAppend, if_pos rfl, hlook1]
    show some (("" ++ (d1 ++ "\n")) ++ (d2 ++ "\n")) = _
    rw [show ("" ++ (d1 ++ "\n")) = d1 ++ "\n" from rfl]
  · have hlen2 : (handle_DATA h now ⟨s, [r], b2⟩
        (handle_DATA h now ⟨s, [r], b1⟩ fs0).fs).fs.files.length =
        (handle_DATA h now ⟨s, [r], b1⟩ fs0).fs.files.length := by
      rw [hfs2, if_pos hdir1, fsAppend_files_length,
        if_pos (by unfold fsIsFile; rw [hlook1]; rfl)]
    have hlen1 : (handle_DATA h now ⟨s, [r], b1⟩ fs0).fs.files.length =
        fs0.files.length + 1 := by
      rw [hfs1, fsAppend_files_length,
        if_neg (by unfold fsIsFile; rw [hfs1d_lookup]; simp)]
      split <;> rfl
    rw [hlen2, hlen1]

theorem claim_C4_witness :
    (handle_DATA ⟨"/mail", false, "eml"⟩ 5 ⟨"a", ["r1"], [104]⟩
        ⟨["/mail"], []⟩).reply = Except.ok "250 OK" ∧
    (handle_DATA ⟨"/mail", false, "eml"⟩ 5 ⟨"a", ["r1"], [105]⟩
        (handle_DATA ⟨"/mail", false, "eml"⟩ 5 ⟨"a", ["r1"], [104]⟩
          ⟨["/mail"], []⟩).fs).reply = Except.ok "250 OK" ∧
    fsLookup (handle_DATA ⟨"/mail", false, "eml"⟩ 5 ⟨"a", ["r1"], [105]⟩
        (handle_DATA ⟨"/mail", false, "eml"⟩ 5 ⟨"a", ["r1"], [104]⟩
          ⟨["/mail"], []⟩).fs).fs
        (recFilePath ⟨"/mail", false, "eml"⟩ 5 "a" "r1") =
      some (("h" ++ "\n") ++ ("i" ++ "\n")) ∧
    (handle_DATA ⟨"/mail", false, "eml"⟩ 5 ⟨"a", ["r1"], [105]⟩
        (handle_DATA ⟨"/mail", false, "eml"⟩ 5 ⟨"a", ["r1"], [104]⟩
          ⟨["/mail"], []⟩).fs).fs.files.length =
      (⟨["/mail"], []⟩ : FS).files.length + 1 :=
  claim_C4 ⟨"/mail", false, "eml"⟩ 5 "a" "r1" [104] [105] "h" "i" ⟨["/mail"], []⟩
    (by decide) (by decide) (by decide) (by decide)

/-- C8: an invalid mail directory value (`None` or not a string) makes
the constructor raise `SystemExit`; a failed creation of a missing mail
directory re-raises the `OSError`; and the startup sequence of `main`
reaches `controller.start()` only when the directory step and the handler
construction both succeeded, so the process never begins listening with
an unusable mail directory. -/
theorem claim_C8 (om nf : Bool) (ext a : String) (fs : FS) :
    (∃ m, handlerInit PyValue.pyNone om ext fs = Except.error (InitError.systemExit m)) ∧
    (∃ m, handlerInit PyValue.pyOther om ext fs = Except.error (InitError.systemExit m)) ∧
    (∀ q, fsIsDir fs a = false → fsMkdir fs a = Except.error q →
      handlerInit (PyValue.pyStr a) om ext fs = Except.error (InitError.ioError q)) ∧
    (∀ q, fsIsDir fs a = false → fsMkdir fs a = Except.error q →
      mainStartup a nf ext fs = StartupResult.fatal (InitError.ioError q)) ∧
    (∀ h fs2, mainStartup a nf ext fs = StartupResult.started h fs2 →
      ∃ fs1, handlerInit (PyValue.pyStr a) nf ext fs1 = Except.ok (h, fs2)) := by
  refine ⟨⟨_, rfl⟩, ⟨_, rfl⟩, ?_, ?_, ?_⟩
  · intro q hd hmk
    simp [handlerInit, hd, hmk]
  · intro q hd hmk
    simp [mainStartup, hd, hmk]
  · intro h fs2 hst
    by_cases hd : fsIsDir fs a
    · refine ⟨fs, ?_⟩
      simp only [mainStartup, if_pos hd] at hst
      cases hin : handlerInit (PyValue.pyStr a) nf ext fs with
      | error e =>
        rw [hin] at hst
        simp at hst
      | ok pr =>
        cases pr with
        | mk h0 fs0 =>
          rw [hin] at hst
          simp only [StartupResult.started.injEq] at hst
          rw [hst.1, hst.2]
    · cases hmk : fsMkdir fs a with
      | error q =>
        simp only [mainStartup, if_neg hd] at hst
        rw [hmk] at hst
        simp at hst
      | ok fsx =>
        refine ⟨fsx, ?_⟩
        simp only [mainStartup, if_neg hd, hmk] at hst
        cases hin : handlerInit (PyValue.pyStr a) nf ext fsx with
        | error e =>
          rw [hin] at hst
          simp at hst
        | ok pr =>
          cases pr with
          | mk h0 fs0 =>
            rw [hin] at hst
            simp only [StartupResult.started.injEq] at hst
            rw [hst.1, hst.2]

theorem claim_C8_witness :
    (∃ m, handlerInit PyValue.pyNone true "eml" ⟨[], [("/mail", "x")]⟩ =
      Except.error (InitError.systemExit m)) ∧
    handlerInit (PyValue.pyStr "/mail") true "eml" ⟨[], [("/mail", "x")]⟩ =
      Except.error (InitError.ioError "/mail") ∧
    mainStartup "/mail" true "eml" ⟨[], [("/mail", "x")]⟩ =
      StartupResult.fatal (InitError.ioError "/mail") :=
  ⟨(claim_C8 true true "eml" "/mail" ⟨[], [("/mail", "x")]⟩).1,
    (claim_C8 true true "eml" "/mail" ⟨[], [("/mail", "x")]⟩).2.2.1 "/mail"
      (by decide) (by decide),
    (claim_C8 true true "eml" "/mail" ⟨[], [("/mail", "x")]⟩).2.2.2.1 "/mail"
      (by decide) (by decide)⟩
